import Mathlib

/-!
Shallow embedding of `secure_csv_writer.py`: a secure CSV writer with cell
sanitization (formula-injection defence), path validation, and write/append
pipelines.  Python values that can appear in a cell are modelled by `Value`;
file-system interaction is modelled by an explicit `World` (which records, for
each I/O primitive, whether it fails and with what message) together with a
trace of `Effect`s actually performed.
-/

namespace SecureCsv

/-- A Python scalar cell value: `None`, a string, an integer, or a boolean. -/
inductive Value where
  | none
  | str (s : String)
  | int (n : Int)
  | bool (b : Bool)
deriving DecidableEq, Repr

/-- Python `str(value)`: the canonical text representation of a value. -/
def pyStr : Value → String
  | Value.none => "None"
  | Value.str s => s
  | Value.int n => toString n
  | Value.bool b => if b then "True" else "False"

/-- The tuple `('=', '+', '-', '@', '\t', '\r', '\n')` from line 24 of the
source (each element a one-character string, as in Python). -/
def dangerousPrefixes : List String := ["=", "+", "-", "@", "\t", "\r", "\n"]

/-- Python `str_value.startswith(dangerous_prefixes)`: true iff some element of
the tuple is a prefix of the string. -/
def startsDangerous (s : String) : Bool :=
  dangerousPrefixes.any (fun p => p.data.isPrefixOf s.data)

/-- `sanitize_cell` (lines 12-30): `None` maps to `""`; otherwise the value is
converted to its text form, and a single quote is prepended when that text
starts with a dangerous prefix. -/
def sanitize_cell (value : Value) : String :=
  match value with
  | Value.none => ""
  | v =>
    let str_value := pyStr v
    if startsDangerous str_value then "'" ++ str_value else str_value

/-- Python `needle in hay` on lists of characters: substring containment. -/
def listIn (needle : List Char) : List Char → Bool
  | [] => needle.isEmpty
  | c :: rest => needle.isPrefixOf (c :: rest) || listIn needle rest

/-- Python `needle in hay` for strings. -/
def pyIn (needle hay : String) : Bool := listIn needle.data hay.data

/-- The exceptions the module raises.  `ioErrorWrapped` is
`raise IOError(msg) from cause`; `osError` is an unwrapped `OSError`/`IOError`
propagating out of an I/O primitive. -/
inductive PyErr where
  | valueError (msg : String)
  | fileNotFound (msg : String)
  | osError (msg : String)
  | ioErrorWrapped (msg : String) (cause : String)
deriving DecidableEq, Repr

/-- `PurePath.name`: the final path component (text after the last `/`). -/
def pathName (p : String) : String :=
  ⟨p.data.foldl (fun acc c => if c = '/' then [] else acc ++ [c]) []⟩

/-- Index of the last `.` in a list of characters, if any. -/
def lastDotIdx (l : List Char) : Option Nat :=
  ((List.range l.length).filter (fun i => l.getD i ' ' = '.')).getLast?

/-- `PurePath.suffix`: the extension of the final component, `.`-included;
empty when the name has no dot, starts with its only dot, or ends with it. -/
def pathSuffix (p : String) : String :=
  let name := (pathName p).data
  match lastDotIdx name with
  | Option.some i => if 0 < i ∧ i + 1 < name.length then ⟨name.drop i⟩ else ""
  | Option.none => ""

/-- Python `str.lower()` (character-wise lowercasing). -/
def strLower (s : String) : String := ⟨s.data.map Char.toLower⟩

/-- `validate_filepath` (lines 33-48), parametrised by the host resolution
function `res` standing for `str(Path(filepath).resolve())`.  The traversal
check is on the raw input string; the extension check on the resolved path. -/
def validate_filepath (res : String → String) (filepath : String) :
    Except PyErr String :=
  let path := res filepath
  if pyIn ".." filepath then
    Except.error (PyErr.valueError "Path traversal detected in filepath")
  else if strLower (pathSuffix path) ≠ ".csv" then
    Except.error (PyErr.valueError "File must have .csv extension")
  else
    Except.ok path

/-- A Python row: an insertion-ordered dict from column name to value. -/
def Row := List (String × Value)

/-- Insertion into a Python dict: an existing key keeps its position and gets
the new value; a new key is appended at the end. -/
def dictInsert (d : List (String × String)) (k v : String) :
    List (String × String) :=
  if d.any (fun p => p.1 == k) then
    d.map (fun p => if p.1 == k then (k, v) else p)
  else
    d ++ [(k, v)]

/-- The dict comprehension
`{sanitize_cell(key): sanitize_cell(value) for key, value in row.items()}`
(lines 88-91 and 149-152): both keys and values pass through the sanitizer,
and a later item whose sanitized key collides overwrites the earlier value. -/
def sanitizeRow (row : Row) : List (String × String) :=
  row.foldl (fun acc kv =>
    dictInsert acc (sanitize_cell (Value.str kv.1)) (sanitize_cell kv.2)) []

/-- Python `d.get(k, dflt)` on the sanitized dict. -/
def lookupD (d : List (String × String)) (k dflt : String) : String :=
  match d.find? (fun p => p.1 == k) with
  | Option.some p => p.2
  | Option.none => dflt

/-- Double every `"` in a string (the `excel` dialect's doublequote rule). -/
def doubleQuotes (s : String) : String :=
  ⟨s.data.foldr (fun c acc =>
    if c = '"' then '"' :: '"' :: acc else c :: acc) []⟩

/-- `csv.QUOTE_ALL` field encoding: always wrap in `"`, doubling inner `"`. -/
def quoteAll (s : String) : String := "\"" ++ doubleQuotes s ++ "\""

/-- One CSV record written by `csv.writer` with `QUOTE_ALL`: every field
quoted, comma-separated, `\r\n`-terminated. -/
def csvRecord (fields : List String) : String :=
  String.intercalate "," (fields.map quoteAll) ++ "\r\n"

/-- `DictWriter._dict_to_list` with `extrasaction='ignore'` and the default
`restval=''`: project a (sanitized) row onto the fieldname sequence, dropping
extra keys and rendering missing keys as the empty field. -/
def projectRow (fieldnames : List String) (d : List (String × String)) :
    List String :=
  fieldnames.map (fun f => lookupD d f "")

/-- `Path.parent` of a resolved absolute path: the text before the last `/`
(`/` when that slash is leading, `.` when there is none). -/
def parentDir (p : String) : String :=
  let l := p.data
  match lastSlashIdx l with
  | Option.some 0 => "/"
  | Option.some i => ⟨l.take i⟩
  | Option.none => "."
where
  lastSlashIdx (l : List Char) : Option Nat :=
    ((List.range l.length).filter (fun i => l.getD i ' ' = '/')).getLast?

/-- File-system operations actually performed, in order. -/
inductive Effect where
  | mkdirParents (dir : String)
  | writeFile (path : String) (content : String)
  | chmod (path : String) (mode : Nat)
  | readFile (path : String)
  | appendFile (path : String) (content : String)
deriving DecidableEq, Repr

/-- The host file system and the fate of each I/O primitive: `Option.some msg`
means that primitive raises an `OSError`/`IOError` carrying `msg`. -/
structure World where
  mkdirErr : Option String
  openWriteErr : Option String
  chmodErr : Option String
  osIsNt : Bool
  fileExistsAt : String → Bool
  openReadErr : Option String
  headerAt : String → Option (List String)
  openAppendErr : Option String

/-- `write_csv_secure` (lines 51-114): empty-data check, path validation,
fieldname inference from the first row, parent `mkdir` (outside the
`try`), sanitization of keys, values and fieldnames, `QUOTE_ALL` write of
header plus rows, and `chmod` on non-Windows hosts; only the open/write/chmod
steps wrap failures as `IOError(...) from e`. -/
def write_csv_secure (res : String → String) (w : World) (filepath : String)
    (data : List Row) (fieldnames : Option (List String))
    (filePermissions : Nat) : Except PyErr Unit × List Effect :=
  match data with
  | [] => (Except.error (PyErr.valueError "Data cannot be empty"), [])
  | first :: _ =>
    match validate_filepath res filepath with
    | Except.error e => (Except.error e, [])
    | Except.ok safePath =>
      let fns := fieldnames.getD (first.map Prod.fst)
      match w.mkdirErr with
      | Option.some msg => (Except.error (PyErr.osError msg), [])
      | Option.none =>
        let effs := [Effect.mkdirParents (parentDir safePath)]
        let sanitizedData := data.map sanitizeRow
        let safeFieldnames := fns.map (fun f => sanitize_cell (Value.str f))
        match w.openWriteErr with
        | Option.some msg =>
          (Except.error (PyErr.ioErrorWrapped
            ("Failed to write CSV file: " ++ msg) msg), effs)
        | Option.none =>
          let content := csvRecord safeFieldnames ++
            String.join (sanitizedData.map
              (fun r => csvRecord (projectRow safeFieldnames r)))
          let effs := effs ++ [Effect.writeFile safePath content]
          if w.osIsNt then (Except.ok (), effs)
          else
            match w.chmodErr with
            | Option.some msg =>
              (Except.error (PyErr.ioErrorWrapped
                ("Failed to write CSV file: " ++ msg) msg), effs)
            | Option.none =>
              (Except.ok (), effs ++ [Effect.chmod safePath filePermissions])

/-- `append_csv_secure` (lines 117-163): empty-data check, path validation,
existence check, header read (`DictReader.fieldnames`, `Option.none` or `[]`
both rejected as headerless), sanitization of keys and values of the new rows,
and a `QUOTE_ALL` append using the file's own fieldnames.  No step here wraps
I/O failures: they propagate as raw `OSError`s. -/
def append_csv_secure (res : String → String) (w : World) (filepath : String)
    (data : List Row) : Except PyErr Unit × List Effect :=
  match data with
  | [] => (Except.error (PyErr.valueError "Data cannot be empty"), [])
  | _ :: _ =>
    match validate_filepath res filepath with
    | Except.error e => (Except.error e, [])
    | Except.ok safePath =>
      if !w.fileExistsAt safePath then
        (Except.error (PyErr.fileNotFound
          ("CSV file does not exist: " ++ filepath)), [])
      else
        match w.openReadErr with
        | Option.some msg => (Except.error (PyErr.osError msg), [])
        | Option.none =>
          let effs := [Effect.readFile safePath]
          match w.headerAt safePath with
          | Option.none =>
            (Except.error (PyErr.valueError "Existing CSV file has no headers"),
              effs)
          | Option.some [] =>
            (Except.error (PyErr.valueError "Existing CSV file has no headers"),
              effs)
          | Option.some fns =>
            let sanitizedData := data.map sanitizeRow
            match w.openAppendErr with
            | Option.some msg => (Except.error (PyErr.osError msg), effs)
            | Option.none =>
              let content := String.join (sanitizedData.map
                (fun r => csvRecord (projectRow fns r)))
              (Except.ok (), effs ++ [Effect.appendFile safePath content])

/-- The dangerous first characters, as individual characters. -/
def formulaChars : List Char := ['=', '+', '-', '@', '\t', '\r', '\n']

lemma singletonPrefixOf (a c : Char) (cs : List Char) :
    [a].isPrefixOf (c :: cs) = (a == c) := by
  simp [List.isPrefixOf]

lemma startsDangerous_head (s : String) (c : Char) (cs : List Char)
    (h : s.data = c :: cs) :
    startsDangerous s = true ↔ c ∈ formulaChars := by
  have e1 : "=".data = ['='] := rfl
  have e2 : "+".data = ['+'] := rfl
  have e3 : "-".data = ['-'] := rfl
  have e4 : "@".data = ['@'] := rfl
  have e5 : "\t".data = ['\t'] := rfl
  have e6 : "\r".data = ['\r'] := rfl
  have e7 : "\n".data = ['\n'] := rfl
  unfold startsDangerous dangerousPrefixes
  rw [h]
  simp only [List.any_cons, List.any_nil, e1, e2, e3, e4, e5, e6, e7,
    singletonPrefixOf, Bool.or_false, Bool.or_eq_true, beq_iff_eq, formulaChars]
  constructor
  · rintro (h | h | h | h | h | h | h) <;> simp [h.symm]
  · intro hm
    rcases (by simpa using hm : c = '=' ∨ c = '+' ∨ c = '-' ∨ c = '@' ∨
      c = '\t' ∨ c = '\r' ∨ c = '\n') with h | h | h | h | h | h | h <;>
      simp [h]

lemma startsDangerous_nil (s : String) (h : s.data = []) :
    startsDangerous s = false := by
  unfold startsDangerous
  rw [h]
  decide

lemma sanitize_cell_of_ne_none (v : Value) (hv : v ≠ Value.none) :
    sanitize_cell v =
      (if startsDangerous (pyStr v) then "'" ++ pyStr v else pyStr v) := by
  cases v with
  | none => exact absurd rfl hv
  | str s => rfl
  | int n => rfl
  | bool b => rfl

/-- C1: `sanitize_cell` of `None` is the empty string; any other value is
rendered to its canonical text, which is returned with a prepended `'` when
its first character is one of `=`, `+`, `-`, `@`, tab, CR, LF, and unchanged
otherwise. -/
theorem c1_sanitize_cases :
    sanitize_cell Value.none = "" ∧
    ∀ v : Value, v ≠ Value.none →
      (∀ c cs, (pyStr v).data = c :: cs → c ∈ formulaChars →
        sanitize_cell v = "'" ++ pyStr v) ∧
      ((∀ c cs, (pyStr v).data = c :: cs → c ∉ formulaChars) →
        sanitize_cell v = pyStr v) := by
  refine ⟨rfl, fun v hv => ⟨?_, ?_⟩⟩
  · intro c cs hdata hmem
    rw [sanitize_cell_of_ne_none v hv, if_pos]
    exact (startsDangerous_head _ c cs hdata).mpr hmem
  · intro hno
    rw [sanitize_cell_of_ne_none v hv, if_neg]
    cases hd : (pyStr v).data with
    | nil => simp [startsDangerous_nil _ hd]
    | cons c cs =>
      intro hcon
      exact hno c cs hd ((startsDangerous_head _ c cs hd).mp hcon)

/-- Witness for C1 at concrete inputs. -/
theorem c1_sanitize_cases_witness :
    sanitize_cell (Value.str "=SUM(A1:A10)") = "'" ++ "=SUM(A1:A10)" ∧
    sanitize_cell (Value.str "hello") = "hello" :=
  ⟨(c1_sanitize_cases.2 (Value.str "=SUM(A1:A10)") (by decide)).1 '='
      "SUM(A1:A10)".data rfl (by decide),
    (c1_sanitize_cases.2 (Value.str "hello") (by decide)).2
      (by intro c cs hd hmem; cases hd; revert hmem; decide)⟩

lemma startsDangerous_quote (s : String) :
    startsDangerous ("'" ++ s) = false := by
  have h : ("'" ++ s).data = '\'' :: s.data := by
    rw [String.data_append]
    rfl
  cases hb : startsDangerous ("'" ++ s) with
  | false => rfl
  | true =>
    exfalso
    have := (startsDangerous_head _ '\'' s.data h).mp hb
    revert this
    decide

lemma sanitize_str_of_safe (s : String) (h : startsDangerous s = false) :
    sanitize_cell (Value.str s) = s := by
  rw [sanitize_cell_of_ne_none (Value.str s) (by simp)]
  simp [pyStr, h]

/-- C3: `sanitize_cell` is idempotent on its own output: re-sanitizing the
string produced by a first sanitization changes nothing. -/
theorem c3_sanitize_idempotent (v : Value) :
    sanitize_cell (Value.str (sanitize_cell v)) = sanitize_cell v := by
  cases hv : v with
  | none =>
    show sanitize_cell (Value.str "") = ""
    exact sanitize_str_of_safe "" (by decide)
  | str s =>
    rw [sanitize_cell_of_ne_none (Value.str s) (by simp)]
    by_cases hb : startsDangerous (pyStr (Value.str s)) = true
    · simp only [hb, if_pos]
      exact sanitize_str_of_safe _ (startsDangerous_quote _)
    · simp only [Bool.not_eq_true] at hb
      simp only [hb, Bool.false_eq_true, if_false]
      exact sanitize_str_of_safe _ hb
  | int n =>
    rw [sanitize_cell_of_ne_none (Value.int n) (by simp)]
    by_cases hb : startsDangerous (pyStr (Value.int n)) = true
    · simp only [hb, if_pos]
      exact sanitize_str_of_safe _ (startsDangerous_quote _)
    · simp only [Bool.not_eq_true] at hb
      simp only [hb, Bool.false_eq_true, if_false]
      exact sanitize_str_of_safe _ hb
  | bool b =>
    rw [sanitize_cell_of_ne_none (Value.bool b) (by simp)]
    by_cases hb : startsDangerous (pyStr (Value.bool b)) = true
    · simp only [hb, if_pos]
      exact sanitize_str_of_safe _ (startsDangerous_quote _)
    · simp only [Bool.not_eq_true] at hb
      simp only [hb, Bool.false_eq_true, if_false]
      exact sanitize_str_of_safe _ hb

/-- C2: whenever the raw path string contains the two-dot sequence anywhere,
`validate_filepath` rejects with the traversal error, for every possible
resolution of the path — the check looks only at the original string. -/
theorem c2_double_dot_rejected (res : String → String) (filepath : String)
    (h : pyIn ".." filepath = true) :
    validate_filepath res filepath =
      Except.error (PyErr.valueError "Path traversal detected in filepath") := by
  unfold validate_filepath
  simp [h]

/-- Witness for C2: a traversal path is rejected even though its resolution is
an innocuous absolute path. -/
theorem c2_double_dot_rejected_witness :
    validate_filepath (fun _ => "/home/safe.csv") "../evil.csv" =
      Except.error (PyErr.valueError "Path traversal detected in filepath") :=
  c2_double_dot_rejected (fun _ => "/home/safe.csv") "../evil.csv" (by decide)

/-- C4: when the raw string passes the two-dot check, `validate_filepath`
rejects with the extension error iff the resolved path's suffix, lowercased,
differs from `.csv`; otherwise it returns the resolved path itself. -/
theorem c4_extension_and_success (res : String → String) (filepath : String)
    (h : pyIn ".." filepath = false) :
    (strLower (pathSuffix (res filepath)) ≠ ".csv" →
      validate_filepath res filepath =
        Except.error (PyErr.valueError "File must have .csv extension")) ∧
    (strLower (pathSuffix (res filepath)) = ".csv" →
      validate_filepath res filepath = Except.ok (res filepath)) := by
  constructor <;> intro hsuf <;> unfold validate_filepath <;> simp [h, hsuf]

/-- Witness for C4: a `.txt` resolution is rejected; an upper-case `.CSV`
resolution is accepted and the resolved path is returned. -/
theorem c4_extension_and_success_witness :
    validate_filepath (fun _ => "/home/u/data.txt") "data.txt" =
      Except.error (PyErr.valueError "File must have .csv extension") ∧
    validate_filepath (fun _ => "/home/u/DATA.CSV") "DATA.CSV" =
      Except.ok "/home/u/DATA.CSV" :=
  ⟨(c4_extension_and_success (fun _ => "/home/u/data.txt") "data.txt"
      (by decide)).1 (by decide),
    (c4_extension_and_success (fun _ => "/home/u/DATA.CSV") "DATA.CSV"
      (by decide)).2 (by decide)⟩

/-- A fully healthy host: no primitive fails, POSIX, target file present. -/
def happyWorld : World where
  mkdirErr := Option.none
  openWriteErr := Option.none
  chmodErr := Option.none
  osIsNt := false
  fileExistsAt := fun _ => true
  openReadErr := Option.none
  headerAt := fun _ => Option.some ["a"]
  openAppendErr := Option.none

/-- C5: writing an empty row list rejects with the empty-input error and
performs no file-system effect at all, whatever the path, the fieldnames and
the state of the host — the rejection precedes even path validation. -/
theorem c5_empty_rows_no_mutation (res : String → String) (w : World)
    (filepath : String) (fieldnames : Option (List String)) (perm : Nat) :
    write_csv_secure res w filepath [] fieldnames perm =
      (Except.error (PyErr.valueError "Data cannot be empty"), []) := rfl

/-- C8: the documented scenario: one row with a formula-looking name and an
integer score yields a header record `"name","score"` and one data record
`"'=SUM(A1:A10)","100"`, every field double-quoted. -/
theorem c8_write_scenario :
    write_csv_secure (fun _ => "/work/out.csv") happyWorld "out.csv"
      [[("name", Value.str "=SUM(A1:A10)"), ("score", Value.int 100)]]
      Option.none 420 =
    (Except.ok (), [Effect.mkdirParents "/work",
      Effect.writeFile "/work/out.csv"
        ("\"name\",\"score\"\r\n\"'=SUM(A1:A10)\",\"100\"\r\n"),
      Effect.chmod "/work/out.csv" 420]) := by
  rfl

/-- C9: the sanitizer is not injective — `=a` and `'=a` sanitize alike — and
in a single row two distinct keys can collapse onto one sanitized key, the
later value overwriting the earlier; the written file then shows a duplicated
sanitized column and only the surviving value. -/
theorem c9_sanitize_not_injective :
    sanitize_cell (Value.str "=a") = sanitize_cell (Value.str "'=a") ∧
    ("=a" : String) ≠ "'=a" ∧
    sanitizeRow [("=a", Value.str "1"), ("'=a", Value.str "2")] =
      [("'=a", "2")] ∧
    write_csv_secure (fun _ => "/w/out.csv") happyWorld "out.csv"
      [[("=a", Value.str "1"), ("'=a", Value.str "2")]] Option.none 420 =
    (Except.ok (), [Effect.mkdirParents "/w",
      Effect.writeFile "/w/out.csv" "\"'=a\",\"'=a\"\r\n\"2\",\"2\"\r\n",
      Effect.chmod "/w/out.csv" 420]) := by
  refine ⟨rfl, by decide, rfl, rfl⟩

lemma validate_filepath_error_msgs (res : String → String) (fp : String)
    (e : PyErr) (h : validate_filepath res fp = Except.error e) :
    e = PyErr.valueError "Path traversal detected in filepath" ∨
    e = PyErr.valueError "File must have .csv extension" := by
  unfold validate_filepath at h
  by_cases h1 : pyIn ".." fp
  · simp [h1] at h
    exact Or.inl h.symm
  · simp [h1] at h
    by_cases h2 : strLower (pathSuffix (res fp)) = ".csv"
    · simp [h2] at h
    · simp [h2] at h
      exact Or.inr h.symm

/-- C10: a non-empty row list whose first row is the empty mapping passes the
empty-input check, derives an empty column set, and writes one empty header
record plus one empty record per row; and no non-empty row list is ever
rejected as empty-input. -/
theorem c10_empty_first_row :
    (∀ (res : String → String) (w : World) (filepath : String)
        (rest : List Row) (perm : Nat),
      pyIn ".." filepath = false →
      strLower (pathSuffix (res filepath)) = ".csv" →
      w.mkdirErr = Option.none → w.openWriteErr = Option.none →
      w.osIsNt = false → w.chmodErr = Option.none →
      write_csv_secure res w filepath ([] :: rest) Option.none perm =
        (Except.ok (), [Effect.mkdirParents (parentDir (res filepath)),
          Effect.writeFile (res filepath)
            (csvRecord [] ++
              String.join (List.replicate (rest.length + 1) (csvRecord []))),
          Effect.chmod (res filepath) perm])) ∧
    (∀ (res : String → String) (w : World) (filepath : String) (first : Row)
        (rest : List Row) (fns : Option (List String)) (perm : Nat),
      (write_csv_secure res w filepath (first :: rest) fns perm).1 ≠
        Except.error (PyErr.valueError "Data cannot be empty")) := by
  constructor
  · intro res w filepath rest perm hp hs hm ho hn hc
    have hv : validate_filepath res filepath = Except.ok (res filepath) := by
      unfold validate_filepath
      simp [hp, hs]
    unfold write_csv_secure
    rw [hv, hm, ho, hn, hc]
    simp [projectRow, List.replicate_succ, Function.comp_def, List.map_const']
  · intro res w filepath first rest fns perm
    unfold write_csv_secure
    cases hv : validate_filepath res filepath with
    | error e =>
      rcases validate_filepath_error_msgs res filepath e hv with h | h <;>
        subst h <;> simp
    | ok p =>
      cases hm : w.mkdirErr with
      | some m => simp
      | none =>
        cases hw : w.openWriteErr with
        | some m => simp
        | none =>
          cases hnt : w.osIsNt with
          | true => simp
          | false =>
            cases hc : w.chmodErr with
            | some m => simp
            | none => simp

/-- Witness for C10: a single empty row writes an empty header record and one
empty data record; a singleton row list is not rejected as empty input. -/
theorem c10_empty_first_row_witness :
    write_csv_secure (fun _ => "/w/out.csv") happyWorld "out.csv" [[]]
      Option.none 420 =
      (Except.ok (), [Effect.mkdirParents "/w",
        Effect.writeFile "/w/out.csv"
          (csvRecord [] ++ String.join (List.replicate 1 (csvRecord []))),
        Effect.chmod "/w/out.csv" 420]) ∧
    (write_csv_secure (fun _ => "/w/out.csv") happyWorld "out.csv"
        [[("a", Value.str "x")]] Option.none 420).1 ≠
      Except.error (PyErr.valueError "Data cannot be empty") :=
  ⟨c10_empty_first_row.1 (fun _ => "/w/out.csv") happyWorld "out.csv" [] 420
      (by decide) (by decide) rfl rfl rfl rfl,
    c10_empty_first_row.2 (fun _ => "/w/out.csv") happyWorld "out.csv"
      [("a", Value.str "x")] [] Option.none 420⟩


/-- Host whose existing CSV file has the single header column `=cmd`. -/
def headerEqCmdWorld : World :=
  { happyWorld with headerAt := fun _ => Option.some ["=cmd"] }

/-- Modelled from the spec claim C6: projection of a new row onto the existing
columns by its unmodified keys, sanitizing only the values. -/
def literalKeyProject (fieldnames : List String) (row : Row) : List String :=
  fieldnames.map (fun f =>
    match row.find? (fun p => p.1 == f) with
    | Option.some p => sanitize_cell p.2
    | Option.none => "")

/-- Counterexample to C6: appending the row `{"=cmd": "v"}` to a file whose
header column is `=cmd` writes an empty field — the row key is sanitized to
`'=cmd` before matching, so it no longer matches the header — while matching
by the unmodified key, as the claim states, would have written `"v"`. -/
theorem c6_counterexample :
    append_csv_secure (fun _ => "/d/f.csv") headerEqCmdWorld "f.csv"
      [[("=cmd", Value.str "v")]] =
      (Except.ok (), [Effect.readFile "/d/f.csv",
        Effect.appendFile "/d/f.csv" (csvRecord [""])]) ∧
    csvRecord (literalKeyProject ["=cmd"] [("=cmd", Value.str "v")]) =
      csvRecord ["v"] ∧
    csvRecord [""] ≠ csvRecord ["v"] := by
  refine ⟨rfl, rfl, by decide⟩

/-- C6 amended: `append_csv_secure` sanitizes both the keys and the values of
every new row; the header columns read from the file are used unmodified, and
each row is projected onto them by its sanitized keys (extra keys dropped,
missing keys blank). -/
theorem c6_amended (res : String → String) (w : World) (filepath : String)
    (r0 : Row) (rs : List Row) (f0 : String) (frest : List String)
    (hp : pyIn ".." filepath = false)
    (hs : strLower (pathSuffix (res filepath)) = ".csv")
    (hex : w.fileExistsAt (res filepath) = true)
    (hr : w.openReadErr = Option.none)
    (hh : w.headerAt (res filepath) = Option.some (f0 :: frest))
    (ha : w.openAppendErr = Option.none) :
    append_csv_secure res w filepath (r0 :: rs) =
      (Except.ok (), [Effect.readFile (res filepath),
        Effect.appendFile (res filepath)
          (String.join ((r0 :: rs).map
            (fun r => csvRecord (projectRow (f0 :: frest) (sanitizeRow r)))))]) := by
  have hv : validate_filepath res filepath = Except.ok (res filepath) := by
    unfold validate_filepath
    simp [hp, hs]
  unfold append_csv_secure
  rw [hv]
  simp [hex, hr, hh, ha, Function.comp_def]

/-- Witness for C6 amended: the counterexample input, now described through
the sanitized-key projection. -/
theorem c6_amended_witness :
    append_csv_secure (fun _ => "/d/f.csv") headerEqCmdWorld "f.csv"
      [[("=cmd", Value.str "v")]] =
      (Except.ok (), [Effect.readFile "/d/f.csv",
        Effect.appendFile "/d/f.csv"
          (String.join ([[("=cmd", Value.str "v")]].map
            (fun r => csvRecord (projectRow ["=cmd"] (sanitizeRow r)))))]) :=
  c6_amended (fun _ => "/d/f.csv") headerEqCmdWorld "f.csv"
    [("=cmd", Value.str "v")] [] "=cmd" []
    (by decide) (by decide) rfl rfl rfl rfl

/-- Host whose directory-creation primitive fails. -/
def mkdirFailWorld : World :=
  { happyWorld with mkdirErr := Option.some "Permission denied" }

/-- Counterexample to C7: when directory creation fails during a write, the
operation propagates the raw `OSError` — it is not the wrapped io-failure
(`IOError("Failed to write CSV file: ...") from e`) the claim requires. -/
theorem c7_counterexample :
    (write_csv_secure (fun _ => "/o/f.csv") mkdirFailWorld "f.csv"
        [[("a", Value.str "x")]] Option.none 420).1 =
      Except.error (PyErr.osError "Permission denied") ∧
    (Except.error (PyErr.osError "Permission denied") : Except PyErr Unit) ≠
      Except.error (PyErr.ioErrorWrapped
        "Failed to write CSV file: Permission denied" "Permission denied") := by
  refine ⟨rfl, by simp⟩

/-- C7 amended: only the open/write and chmod steps of `write_csv_secure`
wrap an I/O failure as the io-failure error carrying its cause; a failing
directory creation in write, and failing read or append steps in
`append_csv_secure`, propagate the raw underlying error unwrapped.  No
failure is swallowed: each failing step yields an error result. -/
theorem c7_amended :
    (∀ (res : String → String) (w : World) (filepath : String) (first : Row)
        (rest : List Row) (fns : Option (List String)) (perm : Nat)
        (c : String),
      pyIn ".." filepath = false →
      strLower (pathSuffix (res filepath)) = ".csv" →
      w.mkdirErr = Option.none → w.openWriteErr = Option.some c →
      write_csv_secure res w filepath (first :: rest) fns perm =
        (Except.error (PyErr.ioErrorWrapped
          ("Failed to write CSV file: " ++ c) c),
          [Effect.mkdirParents (parentDir (res filepath))])) ∧
    (∀ (res : String → String) (w : World) (filepath : String) (first : Row)
        (rest : List Row) (fns : Option (List String)) (perm : Nat)
        (c : String),
      pyIn ".." filepath = false →
      strLower (pathSuffix (res filepath)) = ".csv" →
      w.mkdirErr = Option.none → w.openWriteErr = Option.none →
      w.osIsNt = false → w.chmodErr = Option.some c →
      (write_csv_secure res w filepath (first :: rest) fns perm).1 =
        Except.error (PyErr.ioErrorWrapped
          ("Failed to write CSV file: " ++ c) c)) ∧
    (∀ (res : String → String) (w : World) (filepath : String) (first : Row)
        (rest : List Row) (fns : Option (List String)) (perm : Nat)
        (c : String),
      pyIn ".." filepath = false →
      strLower (pathSuffix (res filepath)) = ".csv" →
      w.mkdirErr = Option.some c →
      write_csv_secure res w filepath (first :: rest) fns perm =
        (Except.error (PyErr.osError c), [])) ∧
    (∀ (res : String → String) (w : World) (filepath : String) (first : Row)
        (rest : List Row) (c : String),
      pyIn ".." filepath = false →
      strLower (pathSuffix (res filepath)) = ".csv" →
      w.fileExistsAt (res filepath) = true →
      w.openReadErr = Option.some c →
      append_csv_secure res w filepath (first :: rest) =
        (Except.error (PyErr.osError c), [])) ∧
    (∀ (res : String → String) (w : World) (filepath : String) (first : Row)
        (rest : List Row) (f0 : String) (frest : List String) (c : String),
      pyIn ".." filepath = false →
      strLower (pathSuffix (res filepath)) = ".csv" →
      w.fileExistsAt (res filepath) = true →
      w.openReadErr = Option.none →
      w.headerAt (res filepath) = Option.some (f0 :: frest) →
      w.openAppendErr = Option.some c →
      append_csv_secure res w filepath (first :: rest) =
        (Except.error (PyErr.osError c), [Effect.readFile (res filepath)])) := by
  have hval : ∀ (res : String → String) (filepath : String),
      pyIn ".." filepath = false →
      strLower (pathSuffix (res filepath)) = ".csv" →
      validate_filepath res filepath = Except.ok (res filepath) := by
    intro res filepath hp hs
    unfold validate_filepath
    simp [hp, hs]
  refine ⟨?_, ?_, ?_, ?_, ?_⟩
  · intro res w filepath first rest fns perm c hp hs hm ho
    unfold write_csv_secure
    rw [hval res filepath hp hs, hm, ho]
  · intro res w filepath first rest fns perm c hp hs hm ho hn hc
    unfold write_csv_secure
    rw [hval res filepath hp hs, hm, ho, hn, hc]
    simp
  · intro res w filepath first rest fns perm c hp hs hm
    unfold write_csv_secure
    rw [hval res filepath hp hs, hm]
  · intro res w filepath first rest c hp hs hex hr
    unfold append_csv_secure
    rw [hval res filepath hp hs]
    simp [hex, hr]
  · intro res w filepath first rest f0 frest c hp hs hex hr hh ha
    unfold append_csv_secure
    rw [hval res filepath hp hs]
    simp [hex, hr, hh, ha]

/-- Witness for C7 amended: each of the five failure shapes at a concrete
host. -/
theorem c7_amended_witness :
    write_csv_secure (fun _ => "/w/f.csv")
        { happyWorld with openWriteErr := Option.some "disk full" } "f.csv"
        [[("a", Value.str "x")]] Option.none 420 =
      (Except.error (PyErr.ioErrorWrapped
        "Failed to write CSV file: disk full" "disk full"),
        [Effect.mkdirParents "/w"]) ∧
    (write_csv_secure (fun _ => "/w/f.csv")
        { happyWorld with chmodErr := Option.some "not permitted" } "f.csv"
        [[("a", Value.str "x")]] Option.none 420).1 =
      Except.error (PyErr.ioErrorWrapped
        "Failed to write CSV file: not permitted" "not permitted") ∧
    write_csv_secure (fun _ => "/w/f.csv") mkdirFailWorld "f.csv"
        [[("a", Value.str "x")]] Option.none 420 =
      (Except.error (PyErr.osError "Permission denied"), []) ∧
    append_csv_secure (fun _ => "/w/f.csv")
        { happyWorld with openReadErr := Option.some "read error" } "f.csv"
        [[("a", Value.str "x")]] =
      (Except.error (PyErr.osError "read error"), []) ∧
    append_csv_secure (fun _ => "/w/f.csv")
        { happyWorld with openAppendErr := Option.some "append error" } "f.csv"
        [[("a", Value.str "x")]] =
      (Except.error (PyErr.osError "append error"),
        [Effect.readFile "/w/f.csv"]) :=
  ⟨c7_amended.1 (fun _ => "/w/f.csv") _ "f.csv" [("a", Value.str "x")] []
      Option.none 420 "disk full" (by decide) (by decide) rfl rfl,
    c7_amended.2.1 (fun _ => "/w/f.csv") _ "f.csv" [("a", Value.str "x")] []
      Option.none 420 "not permitted" (by decide) (by decide) rfl rfl rfl rfl,
    c7_amended.2.2.1 (fun _ => "/w/f.csv") _ "f.csv" [("a", Value.str "x")] []
      Option.none 420 "Permission denied" (by decide) (by decide) rfl,
    c7_amended.2.2.2.1 (fun _ => "/w/f.csv") _ "f.csv" [("a", Value.str "x")]
      [] "read error" (by decide) (by decide) rfl rfl,
    c7_amended.2.2.2.2 (fun _ => "/w/f.csv") _ "f.csv" [("a", Value.str "x")]
      [] "a" [] "append error" (by decide) (by decide) rfl rfl rfl rfl⟩

end SecureCsv
